import Mathlib

/-!
Shallow embedding of the playback orchestration core of the Clementine audio
player (src/core/player.cpp) together with theorems checking the stated
properties of that core.

Modelling conventions:
- `QString` values are modelled as `List Char`.
- `QUrl` is modelled as a record of the components the core reads (host,
  fragment) plus an opaque path component giving each URL its identity; the
  default-constructed empty `QUrl()` is `Url.empty`.
- External collaborators whose code is not part of the given sources
  (playlist cursor, playlist items, audio engine, last.fm scrobbler) are
  modelled from the contracts in the specification: the cursor is a record
  whose navigation policy (next/previous index) and the item load operations
  are oracle functions collected in `Env`; the engine volume and track length
  live in `EngineBase`.
- Calls made on collaborators and signals emitted by the player are recorded
  in an `Event` trace returned next to the new state.
- The call graph HandleSpecialLoad -> NextItem -> PlayAt -> HandleSpecialLoad
  is cyclic in the source, so the mutually recursive operations are embedded
  as one structurally recursive interpreter `run` over a fuel counter; fuel 0
  returns the state unchanged and every theorem supplies enough fuel for the
  branches it exercises.
-/

/-- QString indexOf for a single character: index of the first occurrence,
or -1 when the character does not occur. -/
def qIndexOf (c : Char) : List Char → Int
  | [] => -1
  | a :: as =>
    if a = c then 0
    else
      let r := qIndexOf c as
      if r = -1 then -1 else r + 1

/-- QString left(n): the first n characters (the whole string when n is
negative, as in Qt). -/
def qLeft (n : Int) (s : List Char) : List Char :=
  if n < 0 then s else s.take n.toNat

/-- QString mid(pos): the suffix starting at pos (the whole string when pos
is negative). -/
def qMid (pos : Int) (s : List Char) : List Char :=
  if pos < 0 then s else s.drop pos.toNat

/-- QString trimmed: whitespace removed from both ends. -/
def qTrimmed (s : List Char) : List Char :=
  ((s.dropWhile Char.isWhitespace).reverse.dropWhile Char.isWhitespace).reverse

/-- Qt qBound(lo, v, hi) = qMax(lo, qMin(hi, v)). -/
def qBound (lo v hi : Int) : Int := max lo (min hi v)

/-- Boolean test that the first list is a prefix of the second. -/
def startsWithChars : List Char → List Char → Bool
  | [], _ => true
  | _ :: _, [] => false
  | a :: as, b :: bs => a = b && startsWithChars as bs

/-- QString contains: the pattern occurs as a contiguous substring. -/
def containsChars (pat : List Char) : List Char → Bool
  | [] => pat.isEmpty
  | c :: rest => startsWithChars pat (c :: rest) || containsChars pat rest

/-- Model of QUrl: the components read by the core plus an identity-carrying
path component. -/
structure Url where
  host : List Char
  fragment : List Char
  path : List Char
deriving DecidableEq

/-- The default-constructed QUrl(). -/
def Url.empty : Url := ⟨[], [], []⟩

/-- Engine SimpleMetaBundle: the fields the core reads and writes. -/
structure SimpleMetaBundle where
  title : List Char
  artist : List Char
deriving DecidableEq

/-- Song metadata: the fields involved in the metadata reconciliation. -/
structure Song where
  title : List Char
  artist : List Char
deriving DecidableEq

/-- Modelled from the spec: Song MergeFromSimpleMetaBundle (song.cpp is not
among the given sources). The spec describes a non-destructive merge where
only fields present (non-empty) in the bundle overwrite the existing
metadata. -/
def Song.mergeFromSimpleMetaBundle (song : Song) (b : SimpleMetaBundle) : Song :=
  { title := if b.title.isEmpty then song.title else b.title,
    artist := if b.artist.isEmpty then song.artist else b.artist }

/-- PlaylistItem option bits read by the core. -/
structure PlaylistItemOptions where
  containsMultipleTracks : Bool
  specialPlayBehaviour : Bool
  pauseDisabled : Bool
deriving DecidableEq

/-- Model of a playlist item: locator, capability bits and metadata. -/
structure PlaylistItem where
  url : Url
  options : PlaylistItemOptions
  metadata : Song
deriving DecidableEq

/-- PlaylistItem SpecialLoadResult: tagged union over the three outcomes. -/
inductive SpecialLoadResult where
  | NoMoreTracks
  | TrackAvailable (original_url media_url : Url)
  | WillLoadAsynchronously (original_url : Url)
deriving DecidableEq

/-- Engine TrackChangeType. -/
inductive TrackChangeType where
  | First
  | Auto
  | Manual
deriving DecidableEq

/-- Modelled from the spec: the active playlist session of the cursor
contract (playlist.cpp is not among the given sources): ordered items,
current index with -1 sentinel, stop-after-current marker, scrobbled flag
and the stream metadata store. -/
structure Playlist where
  items : List PlaylistItem
  current_index : Int
  stop_after_current : Bool
  scrobbled : Bool
  streamMetadata : List (Url × Song)
deriving DecidableEq

/-- Modelled from the spec: cursor itemAt(i); a null handle outside bounds. -/
def Playlist.item_at (p : Playlist) (i : Int) : Option PlaylistItem :=
  if i < 0 then none else p.items[i.toNat]?

/-- Modelled from the spec: cursor current_item() is the item at the current
index (none at the -1 sentinel or outside bounds). -/
def Playlist.current_item (p : Playlist) : Option PlaylistItem :=
  p.item_at p.current_index

/-- Modelled from the spec: cursor rowCount(). -/
def Playlist.rowCount (p : Playlist) : Int := p.items.length

/-- Modelled from the spec: cursor setCurrentIndex(i). -/
def Playlist.set_current_index (p : Playlist) (i : Int) : Playlist :=
  { p with current_index := i }

/-- Modelled from the spec: cursor setScrobbled(b). -/
def Playlist.set_scrobbled (p : Playlist) (b : Bool) : Playlist :=
  { p with scrobbled := b }

/-- Modelled from the spec: cursor setStopAfter(i); the core only ever passes
-1, which clears the stop-after-current marker. -/
def Playlist.StopAfter (p : Playlist) (i : Int) : Playlist :=
  if i = -1 then { p with stop_after_current := false } else p

/-- Modelled from the spec: cursor setStreamMetadata(locator, metadata)
publishes the merged metadata keyed by the locator. -/
def Playlist.SetStreamMetadata (p : Playlist) (u : Url) (song : Song) : Playlist :=
  { p with streamMetadata := (u, song) :: p.streamMetadata }

/-- Modelled from the spec: the engine state the core reads synchronously
(volume and track length); setVolume stores and volume() returns the stored
value per the engine capability contract. -/
structure EngineBase where
  volume : Int
  length : Int
deriving DecidableEq

/-- The state owned or referenced by the Player: engine, active playlist
session, the current-item reference, the async-load token loading_async_
(Url.empty when none), the recorded stream change type, the volume cached
before mute, and the persisted settings volume. -/
structure PlayerState where
  engine : EngineBase
  playlist : Playlist
  current_item : Option PlaylistItem
  loading_async : Url
  stream_change_type : TrackChangeType
  volume_before_mute : Int
  settings_volume : Int
deriving DecidableEq

/-- Observable trace entries: engine calls, collaborator load calls and
outward notifications. -/
inductive Event where
  | enginePlay (media : Url) (change : TrackChangeType)
  | engineStop
  | engineSeek (ms : Int)
  | trackSkipped (item : Option PlaylistItem)
  | playlistFinished
  | volumeChanged (v : Int)
  | nowPlaying (song : Song)
  | startLoadingCalled (u : Url)
  | loadNextCalled (u : Url)
deriving DecidableEq

/-- Oracle environment for the external collaborators: the cursor navigation
policy (shuffle/repeat live outside the core), the item load operations and
the scrobbling switch. -/
structure Env where
  next_index : Playlist → Int
  previous_index : Playlist → Int
  startLoading : PlaylistItem → SpecialLoadResult
  loadNext : PlaylistItem → SpecialLoadResult
  scrobblingEnabled : Bool

namespace Player

/-- Player Stop: stop the engine, set the cursor index to the -1 sentinel and
release the current-item reference. -/
def Stop (s : PlayerState) : PlayerState × List Event :=
  ({ s with playlist := s.playlist.set_current_index (-1), current_item := none },
   [Event.engineStop])

/-- Player SetVolume: read the engine volume, clamp the argument to [0,100],
persist it, forward it to the engine, and emit VolumeChanged when the clamped
value differs from the previously read engine volume. -/
def SetVolume (value : Int) (s : PlayerState) : PlayerState × List Event :=
  let old_volume := s.engine.volume
  let volume := qBound 0 value 100
  let s1 := { s with settings_volume := volume,
                     engine := { s.engine with volume := volume } }
  if volume ≠ old_volume then (s1, [Event.volumeChanged volume]) else (s1, [])

/-- Player GetVolume. -/
def GetVolume (s : PlayerState) : Int := s.engine.volume

/-- Player Mute: restore the cached volume when currently 0, otherwise cache
the current volume and set 0. -/
def Mute (s : PlayerState) : PlayerState × List Event :=
  let current_volume := s.engine.volume
  if current_volume = 0 then
    SetVolume s.volume_before_mute s
  else
    SetVolume 0 { s with volume_before_mute := current_volume }

/-- Player Seek: clamp seconds*1000 to [0, engine length], forward to the
engine, and mark the active session scrobbled. -/
def Seek (seconds : Int) (s : PlayerState) : PlayerState × List Event :=
  let msec := qBound 0 (seconds * 1000) s.engine.length
  ({ s with playlist := s.playlist.set_scrobbled true }, [Event.engineSeek msec])

/-- Player GetItemAt: a null handle outside [0, rowCount), otherwise the item
at pos. -/
def GetItemAt (s : PlayerState) (pos : Int) : Option PlaylistItem :=
  if pos < 0 ∨ s.playlist.rowCount ≤ pos then none
  else s.playlist.item_at pos

/-- Player EngineMetadataReceived: return when the active session has no
current item; otherwise split a dashed title into artist (after the dash,
trimmed) and title (before the dash, trimmed) when the artist is empty, swap
artist and title for the known backwards providers, merge into the item
metadata, drop the update when both merged fields are empty, else publish it
keyed by the item locator. -/
def EngineMetadataReceived (bundle : SimpleMetaBundle) (s : PlayerState) : PlayerState :=
  match s.playlist.current_item with
  | none => s
  | some item =>
    let b1 := bundle
    let dash_pos := qIndexOf '-' b1.title
    let b2 : SimpleMetaBundle :=
      if dash_pos != -1 && b1.artist.isEmpty then
        { artist := qTrimmed (qMid (dash_pos + 1) b1.title),
          title := qTrimmed (qLeft dash_pos b1.title) }
      else b1
    let b3 : SimpleMetaBundle :=
      if containsChars ("somafm.com".toList) item.url.host
          || item.url.fragment = "icecast".toList then
        { artist := b2.title, title := b2.artist }
      else b2
    let song := item.metadata.mergeFromSimpleMetaBundle b3
    if song.title.isEmpty && song.artist.isEmpty then s
    else { s with playlist := s.playlist.SetStreamMetadata item.url song }

/-- The mutually recursive player operations as interpreter calls. -/
inductive Call where
  | HandleSpecialLoadC (result : SpecialLoadResult)
  | NextItemC (change : TrackChangeType)
  | PlayAtC (index : Int) (change : TrackChangeType) (reshuffle : Bool)
  | NextInternalC (change : TrackChangeType)
  | PreviousC

/-- Fuelled interpreter for the mutually recursive operations
HandleSpecialLoad, NextItem, PlayAt, NextInternal and Previous, translated
line by line from the source; fuel 0 returns the state unchanged. -/
def run (env : Env) : Nat → Call → PlayerState → PlayerState × List Event
  | 0, _, s => (s, [])
  | fuel+1, Call.HandleSpecialLoadC result, s =>
    match result with
    | SpecialLoadResult.NoMoreTracks =>
      run env fuel (Call.NextItemC TrackChangeType.Auto)
        { s with loading_async := Url.empty }
    | SpecialLoadResult.TrackAvailable original media =>
      if s.playlist.current_index = -1 then (s, [])
      else
        match s.playlist.item_at s.playlist.current_index with
        | none => (s, [])
        | some item =>
          if item.url ≠ original then (s, [])
          else
            ({ s with current_item := some item, loading_async := Url.empty },
             [Event.enginePlay media s.stream_change_type])
    | SpecialLoadResult.WillLoadAsynchronously original =>
      ({ s with loading_async := original }, [])
  | fuel+1, Call.NextItemC change, s =>
    let i := env.next_index s.playlist
    if i = -1 then
      let s1 := { s with playlist := s.playlist.set_current_index i }
      let r := Stop s1
      (r.1, Event.playlistFinished :: r.2)
    else
      run env fuel (Call.PlayAtC i change false) s
  | fuel+1, Call.PlayAtC index change reshuffle, s =>
    let p0 := if reshuffle then s.playlist.set_current_index (-1) else s.playlist
    let p := p0.set_current_index index
    let s1 := { s with playlist := p, current_item := p.current_item }
    match p.current_item with
    | none => (s1, [])
    | some item =>
      if item.options.specialPlayBehaviour then
        if item.url = s1.loading_async then (s1, [])
        else
          let s2 := { s1 with stream_change_type := change }
          let r := run env fuel (Call.HandleSpecialLoadC (env.startLoading item)) s2
          (r.1, Event.startLoadingCalled item.url :: r.2)
      else
        let s2 := { s1 with loading_async := Url.empty }
        let evs := [Event.enginePlay item.url change]
        let evs := if env.scrobblingEnabled then evs ++ [Event.nowPlaying item.metadata] else evs
        (s2, evs)
  | fuel+1, Call.NextInternalC change, s =>
    let skipEv : List Event :=
      if change = TrackChangeType.Manual then [Event.trackSkipped s.current_item] else []
    if s.playlist.stop_after_current then
      let s1 := { s with playlist := s.playlist.StopAfter (-1) }
      let r := Stop s1
      (r.1, skipEv ++ r.2)
    else
      match s.playlist.current_item with
      | some item =>
        if item.options.containsMultipleTracks then
          if item.url = s.loading_async then (s, skipEv)
          else
            let s1 := { s with stream_change_type := change }
            let r := run env fuel (Call.HandleSpecialLoadC (env.loadNext item)) s1
            (r.1, skipEv ++ Event.loadNextCalled item.url :: r.2)
        else
          let r := run env fuel (Call.NextItemC change) s
          (r.1, skipEv ++ r.2)
      | none =>
        let r := run env fuel (Call.NextItemC change) s
        (r.1, skipEv ++ r.2)
  | fuel+1, Call.PreviousC, s =>
    let i := env.previous_index s.playlist
    let s1 := { s with playlist := s.playlist.set_current_index i }
    if i = -1 then Stop s1
    else run env fuel (Call.PlayAtC i TrackChangeType.Manual false) s1

/-- Player HandleSpecialLoad entry point. -/
def HandleSpecialLoad (env : Env) (fuel : Nat) (result : SpecialLoadResult)
    (s : PlayerState) : PlayerState × List Event :=
  run env fuel (Call.HandleSpecialLoadC result) s

/-- Player NextItem entry point. -/
def NextItem (env : Env) (fuel : Nat) (change : TrackChangeType)
    (s : PlayerState) : PlayerState × List Event :=
  run env fuel (Call.NextItemC change) s

/-- Player PlayAt entry point. -/
def PlayAt (env : Env) (fuel : Nat) (index : Int) (change : TrackChangeType)
    (reshuffle : Bool) (s : PlayerState) : PlayerState × List Event :=
  run env fuel (Call.PlayAtC index change reshuffle) s

/-- Player NextInternal entry point. -/
def NextInternal (env : Env) (fuel : Nat) (change : TrackChangeType)
    (s : PlayerState) : PlayerState × List Event :=
  run env fuel (Call.NextInternalC change) s

/-- Player Next: NextInternal with the Manual change type. -/
def Next (env : Env) (fuel : Nat) (s : PlayerState) : PlayerState × List Event :=
  NextInternal env fuel TrackChangeType.Manual s

/-- Player Previous entry point. -/
def Previous (env : Env) (fuel : Nat) (s : PlayerState) : PlayerState × List Event :=
  run env fuel Call.PreviousC s

end Player

/-- Number of engine play calls in a trace. -/
def countPlays (es : List Event) : Nat :=
  (es.filter fun e => match e with
    | Event.enginePlay _ _ => true
    | _ => false).length

/-- Number of engine stop calls in a trace. -/
def countStops (es : List Event) : Nat :=
  (es.filter fun e => match e with
    | Event.engineStop => true
    | _ => false).length

/-- Number of item load calls (StartLoading or LoadNext) in a trace. -/
def countLoadCalls (es : List Event) : Nat :=
  (es.filter fun e => match e with
    | Event.startLoadingCalled _ => true
    | Event.loadNextCalled _ => true
    | _ => false).length

/-! Concrete fixtures used by witnesses and counterexamples. -/

/-- Locator of the special (asynchronously loading) test item. -/
def urlS : Url := ⟨[], [], "s".toList⟩

/-- A bogus locator different from every item locator in the fixtures. -/
def urlB : Url := ⟨[], [], "bogus".toList⟩

/-- Resolved media locator delivered by the test resolver. -/
def mediaW : Url := ⟨[], [], "media".toList⟩

/-- Test item with special play behaviour and multi-track capability. -/
def itemS : PlaylistItem :=
  { url := urlS,
    options := { containsMultipleTracks := true, specialPlayBehaviour := true,
                 pauseDisabled := false },
    metadata := { title := [], artist := [] } }

/-- Test oracle environment: navigation always exhausted, loads resolve
asynchronously. -/
def envW : Env :=
  { next_index := fun _ => -1,
    previous_index := fun _ => -1,
    startLoading := fun it => SpecialLoadResult.WillLoadAsynchronously it.url,
    loadNext := fun it => SpecialLoadResult.WillLoadAsynchronously it.url,
    scrobblingEnabled := false }

/-- Base test state: one special item at index 0, no load in flight. -/
def sW : PlayerState :=
  { engine := { volume := 70, length := 200000 },
    playlist := { items := [itemS], current_index := 0, stop_after_current := false,
                  scrobbled := false, streamMetadata := [] },
    current_item := some itemS,
    loading_async := Url.empty,
    stream_change_type := TrackChangeType.Auto,
    volume_before_mute := 50,
    settings_volume := 70 }

/-- Variant of the base test state whose cursor sits at the -1 sentinel. -/
def sWm1 : PlayerState :=
  { sW with playlist := { items := [itemS], current_index := -1, stop_after_current := false,
                          scrobbled := false, streamMetadata := [] },
            current_item := none }

/-- Variant of the base test state with the special item load in flight. -/
def s2W : PlayerState := { sW with loading_async := urlS }

/-- State after Player SetVolume 70 on the base test state. -/
def s70 : PlayerState := (Player.SetVolume 70 sW).1

/-- Test state whose active playlist is empty. -/
def sEmpty : PlayerState :=
  { sW with playlist := { items := [], current_index := -1, stop_after_current := false,
                          scrobbled := false, streamMetadata := [] },
            current_item := none }

/-- Ordinary stream item for the metadata fixtures. -/
def itemM : PlaylistItem :=
  { url := ⟨[], [], "m".toList⟩,
    options := { containsMultipleTracks := false, specialPlayBehaviour := false,
                 pauseDisabled := false },
    metadata := { title := [], artist := [] } }

/-- Metadata test state: the stream item is current. -/
def sC1 : PlayerState :=
  { engine := { volume := 50, length := 0 },
    playlist := { items := [itemM], current_index := 0, stop_after_current := false,
                  scrobbled := false, streamMetadata := [] },
    current_item := some itemM,
    loading_async := Url.empty,
    stream_change_type := TrackChangeType.First,
    volume_before_mute := 50,
    settings_volume := 50 }

/-- Icecast-style bundle with artist and title joined in the title field. -/
def bundleC1 : SimpleMetaBundle :=
  { title := "Artist Name - Track Title".toList, artist := [] }

/-- Environment for the async token counterexample: no previous index, loads
resolve asynchronously. -/
def envC2 : Env :=
  { next_index := fun _ => -1,
    previous_index := fun _ => -1,
    startLoading := fun it => SpecialLoadResult.WillLoadAsynchronously it.url,
    loadNext := fun _ => SpecialLoadResult.NoMoreTracks,
    scrobblingEnabled := false }

/-- Start state for the async token counterexample: one special item, nothing
current, no load in flight. -/
def sC2 : PlayerState :=
  { engine := { volume := 50, length := 0 },
    playlist := { items := [itemS], current_index := -1, stop_after_current := false,
                  scrobbled := false, streamMetadata := [] },
    current_item := none,
    loading_async := Url.empty,
    stream_change_type := TrackChangeType.First,
    volume_before_mute := 50,
    settings_volume := 50 }

/-! Helper lemmas about the collaborator models. -/

theorem Playlist.item_at_set_current_index (p : Playlist) (j i : Int) :
    (p.set_current_index j).item_at i = p.item_at i := rfl

theorem Playlist.current_item_set_current_index (p : Playlist) (j : Int) :
    (p.set_current_index j).current_item = p.item_at j := rfl

theorem Playlist.current_index_set_current_index (p : Playlist) (i : Int) :
    (p.set_current_index i).current_index = i := rfl

theorem Playlist.set_current_index_idem (p : Playlist) (i : Int) :
    (p.set_current_index i).set_current_index i = p.set_current_index i := rfl

theorem Playlist.item_at_nonneg {p : Playlist} {i : Int} {it : PlaylistItem}
    (h : p.item_at i = some it) : 0 ≤ i := by
  unfold Playlist.item_at at h
  by_cases hi : i < 0
  · simp [hi] at h
  · omega

theorem Player.SetVolume_fst (x : Int) (s : PlayerState) :
    (Player.SetVolume x s).1
      = { s with settings_volume := qBound 0 x 100,
                 engine := { s.engine with volume := qBound 0 x 100 } } := by
  simp only [Player.SetVolume]
  split <;> rfl

/-! Claim theorems. -/

/-- C1: evaluation of the metadata pipeline at the icecast-style bundle with
empty artist and title "Artist Name - Track Title". The claim states the
merged metadata published for the current item has artist "Artist Name" and
title "Track Title"; the code as written assigns the part AFTER the dash to
the artist and the part BEFORE the dash to the title, publishing artist
"Track Title" and title "Artist Name" — the opposite — contradicting the
source comment, which says the title field carries "Artist - Title". -/
theorem C1_metadata_split_eval :
    (Player.EngineMetadataReceived bundleC1 sC1).playlist.streamMetadata
      = [(itemM.url, { title := "Artist Name".toList, artist := "Track Title".toList })]
    ∧ (Player.EngineMetadataReceived bundleC1 sC1).playlist.streamMetadata
      ≠ [(itemM.url, { title := "Track Title".toList, artist := "Artist Name".toList })] := by
  decide

/-- C2 counterexample: the async-token invariant fails as stated. Starting
from a state with one special item and no load in flight, PlayAt 0 records a
WillLoadAsynchronously token, and Previous (no previous index) stops: the
cursor sits at the -1 sentinel and the current-item reference is cleared, yet
the token is still set. The token is non-empty although no
WillLoadAsynchronously result is pending for any current item (there is no
current item), refuting the claimed iff and leaving the token dangling. -/
theorem C2_counterexample :
    ((Player.Previous envC2 2 (Player.PlayAt envC2 2 0 TrackChangeType.First false sC2).1).1.loading_async
        = itemS.url)
    ∧ itemS.url ≠ Url.empty
    ∧ (Player.Previous envC2 2 (Player.PlayAt envC2 2 0 TrackChangeType.First false sC2).1).1.current_item
        = none
    ∧ (Player.Previous envC2 2 (Player.PlayAt envC2 2 0 TrackChangeType.First false sC2).1).1.playlist.current_index
        = -1 := by
  decide

/-- C2 (amended): inside the resolver the token discipline does hold — a
WillLoadAsynchronously result sets the token to its original locator, a
TrackAvailable result matching the current item clears it, a NoMoreTracks
result clears it before advancing (shown here for an exhausted cursor) — but
Stop leaves the token unchanged, which is why a stop reached through
Previous or stop-after-current can leave the token dangling. -/
theorem C2_token_lifecycle (env : Env) (fuel : Nat) (s : PlayerState)
    (orig media : Url) (item : PlaylistItem)
    (hitem : s.playlist.item_at s.playlist.current_index = some item)
    (hmatch : item.url = orig) :
    (Player.HandleSpecialLoad env (fuel+1)
        (SpecialLoadResult.WillLoadAsynchronously orig) s).1.loading_async = orig
    ∧ (Player.HandleSpecialLoad env (fuel+1)
        (SpecialLoadResult.TrackAvailable orig media) s).1.loading_async = Url.empty
    ∧ (env.next_index s.playlist = -1 →
        (Player.HandleSpecialLoad env (fuel+2)
          SpecialLoadResult.NoMoreTracks s).1.loading_async = Url.empty)
    ∧ (Player.Stop s).1.loading_async = s.loading_async := by
  have hpos : 0 ≤ s.playlist.current_index := Playlist.item_at_nonneg hitem
  have hidx : ¬ s.playlist.current_index = -1 := by omega
  refine ⟨?_, ?_, ?_, rfl⟩
  · unfold Player.HandleSpecialLoad
    simp [Player.run]
  · unfold Player.HandleSpecialLoad
    simp [Player.run, hidx, hitem, hmatch]
  · intro h
    unfold Player.HandleSpecialLoad
    simp [Player.run, h, Player.Stop]

/-- Witness for C2 (amended) at the concrete fixture state. -/
theorem C2_token_lifecycle_witness :
    (Player.HandleSpecialLoad envW 1
        (SpecialLoadResult.WillLoadAsynchronously urlS) sW).1.loading_async = urlS
    ∧ (Player.HandleSpecialLoad envW 1
        (SpecialLoadResult.TrackAvailable urlS mediaW) sW).1.loading_async = Url.empty
    ∧ (Player.HandleSpecialLoad envW 2
        SpecialLoadResult.NoMoreTracks sW).1.loading_async = Url.empty
    ∧ (Player.Stop sW).1.loading_async = sW.loading_async := by
  have h := C2_token_lifecycle envW 0 sW urlS mediaW itemS (by decide) (by decide)
  exact ⟨h.1, h.2.1, h.2.2.1 (by decide), h.2.2.2⟩

/-- C3: a TrackAvailable result is discarded silently — state unchanged, no
events — when the current index is the -1 sentinel or the item at the
current index has a locator different from the original locator; when the
locator matches, the engine plays the resolved locator with the recorded
change type, the current-item reference is updated to that item and the
async token is cleared. -/
theorem C3_stale_result_discard (env : Env) (fuel : Nat) (s : PlayerState)
    (orig media : Url) :
    ((s.playlist.current_index = -1
        ∨ ∀ item, s.playlist.item_at s.playlist.current_index = some item →
            item.url ≠ orig) →
      Player.HandleSpecialLoad env (fuel+1)
        (SpecialLoadResult.TrackAvailable orig media) s = (s, []))
    ∧ (∀ item, s.playlist.item_at s.playlist.current_index = some item →
        item.url = orig →
        Player.HandleSpecialLoad env (fuel+1)
          (SpecialLoadResult.TrackAvailable orig media) s
          = ({ s with current_item := some item, loading_async := Url.empty },
             [Event.enginePlay media s.stream_change_type])) := by
  constructor
  · intro h
    unfold Player.HandleSpecialLoad
    by_cases hidx : s.playlist.current_index = -1
    · simp [Player.run, hidx]
    · rcases h with h | h
      · exact absurd h hidx
      · cases hit : s.playlist.item_at s.playlist.current_index with
        | none => simp [Player.run, hidx, hit]
        | some it =>
          have hu := h it hit
          simp [Player.run, hidx, hit, hu]
  · intro item hit hurl
    have hpos : 0 ≤ s.playlist.current_index := Playlist.item_at_nonneg hit
    have hidx : ¬ s.playlist.current_index = -1 := by omega
    unfold Player.HandleSpecialLoad
    simp [Player.run, hidx, hit, hurl]

/-- Witness for C3: stale result discarded at the sentinel state, matching
result played at the base state. -/
theorem C3_stale_result_discard_witness :
    Player.HandleSpecialLoad envW 1
        (SpecialLoadResult.TrackAvailable urlB mediaW) sWm1 = (sWm1, [])
    ∧ Player.HandleSpecialLoad envW 1
        (SpecialLoadResult.TrackAvailable urlS mediaW) sW
        = ({ sW with current_item := some itemS, loading_async := Url.empty },
           [Event.enginePlay mediaW sW.stream_change_type]) :=
  ⟨(C3_stale_result_discard envW 0 sWm1 urlB mediaW).1 (Or.inl (by decide)),
   (C3_stale_result_discard envW 0 sW urlS mediaW).2 itemS (by decide) (by decide)⟩

/-- C4: duplicate load guard. For an item at a valid index with special play
behaviour whose load resolves asynchronously and is not yet in flight, the
first PlayAt only starts the load, an immediately repeated PlayAt is a
complete no-op (same state, no events, so no new load and no play), and the
later TrackAvailable resolution produces the single engine play call: the
whole episode plays exactly once. In addition, NextInternal on a multi-track
current item whose locator equals the in-flight token returns without any
load or play. -/
theorem C4_duplicate_load_guard (env : Env) (fuel : Nat) (index : Int)
    (change : TrackChangeType) (media : Url) (s : PlayerState) (item : PlaylistItem)
    (h_item : s.playlist.item_at index = some item)
    (h_spec : item.options.specialPlayBehaviour = true)
    (h_load : env.startLoading item = SpecialLoadResult.WillLoadAsynchronously item.url)
    (h_fresh : item.url ≠ s.loading_async) :
    (Player.PlayAt env (fuel+2) index change false s).2
        = [Event.startLoadingCalled item.url]
    ∧ (Player.PlayAt env (fuel+2) index change false
        (Player.PlayAt env (fuel+2) index change false s).1)
        = ((Player.PlayAt env (fuel+2) index change false s).1, [])
    ∧ (Player.HandleSpecialLoad env (fuel+1)
        (SpecialLoadResult.TrackAvailable item.url media)
        (Player.PlayAt env (fuel+2) index change false
          (Player.PlayAt env (fuel+2) index change false s).1).1).2
        = [Event.enginePlay media change]
    ∧ countPlays ((Player.PlayAt env (fuel+2) index change false s).2
        ++ (Player.PlayAt env (fuel+2) index change false
             (Player.PlayAt env (fuel+2) index change false s).1).2
        ++ (Player.HandleSpecialLoad env (fuel+1)
             (SpecialLoadResult.TrackAvailable item.url media)
             (Player.PlayAt env (fuel+2) index change false
               (Player.PlayAt env (fuel+2) index change false s).1).1).2) = 1
    ∧ (∀ s2 : PlayerState, s2.playlist.stop_after_current = false →
        s2.playlist.current_item = some item →
        item.options.containsMultipleTracks = true →
        s2.loading_async = item.url →
        Player.NextInternal env (fuel+1) TrackChangeType.Auto s2 = (s2, [])) := by
  have hp : (s.playlist.set_current_index index).current_item = some item := by
    rw [Playlist.current_item_set_current_index]; exact h_item
  have hr1 : Player.PlayAt env (fuel+2) index change false s
      = ({ s with playlist := s.playlist.set_current_index index,
                  current_item := some item,
                  stream_change_type := change,
                  loading_async := item.url },
         [Event.startLoadingCalled item.url]) := by
    unfold Player.PlayAt
    simp only [Player.run, Bool.false_eq_true, if_false, hp, h_spec, if_true,
      h_load, h_fresh]
  have hr2 : Player.PlayAt env (fuel+2) index change false
      (Player.PlayAt env (fuel+2) index change false s).1
      = ((Player.PlayAt env (fuel+2) index change false s).1, []) := by
    rw [hr1]
    unfold Player.PlayAt
    simp only [Player.run, Bool.false_eq_true, if_false,
      Playlist.set_current_index_idem, hp, h_spec, if_true]
  have hpos : 0 ≤ index := Playlist.item_at_nonneg h_item
  have hidx : ¬ (index = -1) := by omega
  have hr3 : Player.HandleSpecialLoad env (fuel+1)
      (SpecialLoadResult.TrackAvailable item.url media)
      (Player.PlayAt env (fuel+2) index change false
        (Player.PlayAt env (fuel+2) index change false s).1).1
      = ({ s with playlist := s.playlist.set_current_index index,
                  current_item := some item,
                  stream_change_type := change,
                  loading_async := Url.empty },
         [Event.enginePlay media change]) := by
    rw [hr2, hr1]
    unfold Player.HandleSpecialLoad
    simp only [Player.run, Playlist.current_index_set_current_index,
      Playlist.item_at_set_current_index, hidx, if_false, h_item]
    simp
  refine ⟨by rw [hr1], hr2, by rw [hr3], ?_, ?_⟩
  · rw [hr3, hr2, hr1]
    simp [countPlays]
  · intro s2 hsac hcur hmul hla
    unfold Player.NextInternal
    simp only [Player.run, hsac, Bool.false_eq_true, if_false, hcur, hmul, if_true,
      hla, ite_true, ite_false]
    simp

/-- Witness for C4 at the concrete fixtures: the double PlayAt plus
resolution episode and the guarded NextInternal. -/
theorem C4_duplicate_load_guard_witness :
    (Player.PlayAt envW 2 0 TrackChangeType.Auto false sW).2
        = [Event.startLoadingCalled itemS.url]
    ∧ (Player.PlayAt envW 2 0 TrackChangeType.Auto false
        (Player.PlayAt envW 2 0 TrackChangeType.Auto false sW).1)
        = ((Player.PlayAt envW 2 0 TrackChangeType.Auto false sW).1, [])
    ∧ countPlays ((Player.PlayAt envW 2 0 TrackChangeType.Auto false sW).2
        ++ (Player.PlayAt envW 2 0 TrackChangeType.Auto false
             (Player.PlayAt envW 2 0 TrackChangeType.Auto false sW).1).2
        ++ (Player.HandleSpecialLoad envW 1
             (SpecialLoadResult.TrackAvailable itemS.url mediaW)
             (Player.PlayAt envW 2 0 TrackChangeType.Auto false
               (Player.PlayAt envW 2 0 TrackChangeType.Auto false sW).1).1).2) = 1
    ∧ Player.NextInternal envW 1 TrackChangeType.Auto s2W = (s2W, []) := by
  have h := C4_duplicate_load_guard envW 0 0 TrackChangeType.Auto mediaW sW itemS
    (by decide) (by decide) (by decide) (by decide)
  exact ⟨h.1, h.2.1, h.2.2.2.1,
    h.2.2.2.2 s2W (by decide) (by decide) (by decide) (by decide)⟩

/-- C5: when the cursor nextIndex is -1, NextItem sets the cursor index to
the -1 sentinel, emits the playlistFinished notification, stops with exactly
one engine stop call, and clears the current-item reference. -/
theorem C5_exhausted_playlist (env : Env) (fuel : Nat) (change : TrackChangeType)
    (s : PlayerState) (h : env.next_index s.playlist = -1) :
    (Player.NextItem env (fuel+1) change s).1.playlist.current_index = -1
    ∧ (Player.NextItem env (fuel+1) change s).1.current_item = none
    ∧ (Player.NextItem env (fuel+1) change s).2
        = [Event.playlistFinished, Event.engineStop]
    ∧ countStops (Player.NextItem env (fuel+1) change s).2 = 1 := by
  unfold Player.NextItem
  simp [Player.run, h, Player.Stop, Playlist.set_current_index, countStops]

/-- Witness for C5 at the concrete fixtures. -/
theorem C5_exhausted_playlist_witness :
    (Player.NextItem envW 1 TrackChangeType.Auto sW).1.playlist.current_index = -1
    ∧ (Player.NextItem envW 1 TrackChangeType.Auto sW).1.current_item = none
    ∧ (Player.NextItem envW 1 TrackChangeType.Auto sW).2
        = [Event.playlistFinished, Event.engineStop]
    ∧ countStops (Player.NextItem envW 1 TrackChangeType.Auto sW).2 = 1 :=
  C5_exhausted_playlist envW 0 TrackChangeType.Auto sW (by decide)

/-- C6: SetVolume clamps its argument to the interval [0,100] (so SetVolume
at -5 behaves as at 0 and at 150 as at 100), persists the clamped value,
forwards it to the engine, and emits the volumeChanged notification exactly
when the clamped value differs from the engine volume read before the
call. -/
theorem C6_set_volume_clamp (v : Int) (s : PlayerState) :
    (Player.SetVolume v s).1.engine.volume = qBound 0 v 100
    ∧ (Player.SetVolume v s).1.settings_volume = qBound 0 v 100
    ∧ 0 ≤ qBound 0 v 100 ∧ qBound 0 v 100 ≤ 100
    ∧ Player.SetVolume (-5) s = Player.SetVolume 0 s
    ∧ Player.SetVolume 150 s = Player.SetVolume 100 s
    ∧ (Player.SetVolume v s).2
        = (if qBound 0 v 100 ≠ s.engine.volume
           then [Event.volumeChanged (qBound 0 v 100)] else []) := by
  refine ⟨?_, ?_, ?_, ?_, ?_, ?_, ?_⟩
  · rw [Player.SetVolume_fst]
  · rw [Player.SetVolume_fst]
  · simp [qBound]
  · simp [qBound]
  · simp only [Player.SetVolume, show qBound 0 (-5) 100 = 0 from rfl,
      show qBound 0 0 100 = 0 from rfl]
  · simp only [Player.SetVolume, show qBound 0 150 100 = 100 from rfl,
      show qBound 0 100 100 = 100 from rfl]
  · simp only [Player.SetVolume]
    split <;> simp_all

/-- C7: the mute toggle round-trips the engine volume: for any state whose
engine volume v is nonzero and within the engine volume range [0,100], Mute
drives the engine volume to 0 and a second Mute restores exactly v. -/
theorem C7_mute_round_trip (s : PlayerState)
    (h1 : s.engine.volume ≠ 0) (h2 : 0 ≤ s.engine.volume)
    (h3 : s.engine.volume ≤ 100) :
    (Player.Mute s).1.engine.volume = 0
    ∧ (Player.Mute (Player.Mute s).1).1.engine.volume = s.engine.volume := by
  have hm1 : (Player.Mute s).1
      = { s with volume_before_mute := s.engine.volume,
                 settings_volume := 0,
                 engine := { s.engine with volume := 0 } } := by
    unfold Player.Mute
    simp only [h1, if_neg, ite_false]
    rw [Player.SetVolume_fst]
    rfl
  constructor
  · rw [hm1]
  · rw [hm1]
    unfold Player.Mute
    simp only [if_pos]
    rw [Player.SetVolume_fst]
    simp [qBound]
    omega

/-- Witness for C7: after SetVolume 70 the engine volume is 70, one Mute
gives 0 and a second Mute restores 70. -/
theorem C7_mute_round_trip_witness :
    (Player.Mute s70).1.engine.volume = 0
    ∧ (Player.Mute (Player.Mute s70).1).1.engine.volume = s70.engine.volume :=
  C7_mute_round_trip s70 (by decide) (by decide) (by decide)

/-- C8: Seek clamps seconds*1000 to [0, engine track length], forwards the
clamped value to the engine seek call, marks the active session scrobbled
regardless of the prior flag, and changes nothing else. -/
theorem C8_seek_clamp_scrobble (seconds : Int) (s : PlayerState)
    (h : 0 ≤ s.engine.length) :
    (Player.Seek seconds s).2
        = [Event.engineSeek (qBound 0 (seconds * 1000) s.engine.length)]
    ∧ 0 ≤ qBound 0 (seconds * 1000) s.engine.length
    ∧ qBound 0 (seconds * 1000) s.engine.length ≤ s.engine.length
    ∧ (Player.Seek seconds s).1.playlist.scrobbled = true
    ∧ (Player.Seek seconds s).1 = { s with playlist := s.playlist.set_scrobbled true } := by
  refine ⟨rfl, by simp [qBound], ?_, rfl, rfl⟩
  simp only [qBound]
  omega

/-- Witness for C8: Seek 30 on the base fixture (track length 200000 ms,
scrobbled initially false). -/
theorem C8_seek_clamp_scrobble_witness :
    (Player.Seek 30 sW).2
        = [Event.engineSeek (qBound 0 (30 * 1000) sW.engine.length)]
    ∧ 0 ≤ qBound 0 (30 * 1000) sW.engine.length
    ∧ qBound 0 (30 * 1000) sW.engine.length ≤ sW.engine.length
    ∧ (Player.Seek 30 sW).1.playlist.scrobbled = true
    ∧ (Player.Seek 30 sW).1 = { sW with playlist := sW.playlist.set_scrobbled true } :=
  C8_seek_clamp_scrobble 30 sW (by decide)

/-- C9: GetItemAt is total: it returns the null handle whenever pos is
negative or at least the row count of the active playlist, and for every pos
within bounds it returns exactly the item stored at pos. -/
theorem C9_get_item_at_total (s : PlayerState) (pos : Int) :
    ((pos < 0 ∨ s.playlist.rowCount ≤ pos) → Player.GetItemAt s pos = none)
    ∧ (0 ≤ pos → pos < s.playlist.rowCount →
        ∃ it, Player.GetItemAt s pos = some it
          ∧ s.playlist.items[pos.toNat]? = some it) := by
  constructor
  · intro h
    unfold Player.GetItemAt
    simp [h]
  · intro h0 h1
    unfold Player.GetItemAt Playlist.item_at
    have hn : ¬ (pos < 0 ∨ s.playlist.rowCount ≤ pos) := by
      unfold Playlist.rowCount at h1 ⊢; omega
    have hlt : pos.toNat < s.playlist.items.length := by
      unfold Playlist.rowCount at h1; omega
    refine ⟨s.playlist.items[pos.toNat], ?_, ?_⟩
    · simp [hn, List.getElem?_eq_getElem hlt]
      omega
    · simp [List.getElem?_eq_getElem hlt]

/-- Witness for C9: out-of-bounds position 5 yields the null handle and
in-bounds position 0 yields the stored item, on the one-item fixture. -/
theorem C9_get_item_at_total_witness :
    Player.GetItemAt sW 5 = none
    ∧ ∃ it, Player.GetItemAt sW 0 = some it
        ∧ sW.playlist.items[(0 : Int).toNat]? = some it :=
  ⟨(C9_get_item_at_total sW 5).1 (Or.inr (by decide)),
   (C9_get_item_at_total sW 0).2 (by decide) (by decide)⟩

/-- C10: when the active playlist has no current item, EngineMetadataReceived
returns the state unchanged: nothing is split, swapped, merged or published
and the metadata store is untouched. -/
theorem C10_metadata_null_item (bundle : SimpleMetaBundle) (s : PlayerState)
    (h : s.playlist.current_item = none) :
    Player.EngineMetadataReceived bundle s = s := by
  simp only [Player.EngineMetadataReceived, h]

/-- Witness for C10 on the empty-playlist fixture. -/
theorem C10_metadata_null_item_witness :
    Player.EngineMetadataReceived bundleC1 sEmpty = sEmpty :=
  C10_metadata_null_item bundleC1 sEmpty (by decide)
